import Mathlib

/-!
Verification of the scoring scripts of this repository
(src/run.py, src/run2.py, src/run3.py, src/run5.py, src/run6.py).

Modelling conventions, used throughout:
* Python floats are modelled by `ℚ` (exact arithmetic); the scripts only use
  `+ - * / **` with small constants, so every formula is expressed exactly.
* A yfinance `info` dict field is modelled as `Option (Option ℚ)`:
  `none` means the key is absent, `some none` means the key is present with
  value `None`, and `some (some v)` means the key holds the number `v`.
  `info.get(k)` is `pyGet`, `info.get(k, d)` is `pyGetD`.
* Python truthiness of an optional float (`None` and `0.0` are falsy) is
  `truthy`; `a or b` on such values is `pyOr` / `pyOrQ`.
* Arithmetic on a `None` value raises `TypeError` in Python; computations
  that can raise are modelled in `Except String`.  Division of nonzero
  floats by zero raises `ZeroDivisionError` (plain Python floats).
* Data fetching (yfinance history, FRED) is external: the price, the
  historical high and the rolling statistics enter the model as inputs,
  exactly as the scripts read them before the arithmetic being verified.
-/

/-- Equality of modelled fallible results is decidable, so concrete runs can
be checked by evaluation. -/
instance {ε α : Type} [DecidableEq ε] [DecidableEq α] : DecidableEq (Except ε α) := fun a b =>
  match a, b with
  | .error x, .error y =>
    if h : x = y then isTrue (by rw [h]) else isFalse (by simp [h])
  | .error _, .ok _ => isFalse (by simp)
  | .ok _, .error _ => isFalse (by simp)
  | .ok x, .ok y =>
    if h : x = y then isTrue (by rw [h]) else isFalse (by simp [h])

/-- `info.get(key)`: absent keys read as `None`. -/
def pyGet (f : Option (Option ℚ)) : Option ℚ :=
  f.getD none

/-- `info.get(key, d)`: absent keys read as the default `d`; a key that is
present with value `None` still reads as `None`. -/
def pyGetD (f : Option (Option ℚ)) (d : ℚ) : Option ℚ :=
  f.getD (some d)

/-- Python truthiness of an optional float: `None` and `0.0` are falsy. -/
def truthy (a : Option ℚ) : Bool :=
  match a with
  | some v => v != 0
  | none => false

/-- Python `a or b` on optional floats. -/
def pyOr (a b : Option ℚ) : Option ℚ :=
  if truthy a then a else b

/-- Python `a or d` where the right operand is a number literal. -/
def pyOrQ (a : Option ℚ) (d : ℚ) : ℚ :=
  match a with
  | some v => if v = 0 then d else v
  | none => d

/-- Multiplying an optional float by a number: `None * k` raises `TypeError`. -/
def mulO (a : Option ℚ) (k : ℚ) : Except String ℚ :=
  match a with
  | some v => .ok (v * k)
  | none => .error "TypeError"

/-- Dividing an optional float by a number: `None / k` raises `TypeError`. -/
def divO (a : Option ℚ) (k : ℚ) : Except String ℚ :=
  match a with
  | some v => .ok (v / k)
  | none => .error "TypeError"

/-! ## Strategy A: `calculate_n_score` from src/run.py -/

/-- The `info` fields read by `calculate_n_score` (src/run.py lines 173-188). -/
structure NInfo where
  trailingPE : Option (Option ℚ)
  trailingPeg : Option (Option ℚ)
  forwardPE : Option (Option ℚ)
deriving DecidableEq

/-- The module-global benchmark reference `class Globals` (src/run.py lines
12-14): the S&P-proxy trailing P/E and n-value. -/
structure SPRef where
  pe : ℚ
  nv : ℚ
deriving DecidableEq

/-- The initial values of `Globals`: `pe_ratio_sp500 = 25.0`,
`n_ratio_sp500 = 1.0`. -/
def sp_init : SPRef := ⟨25, 1⟩

/-- Possible outcomes of `calculate_n_score` for one ticker.  The source
returns formatted strings; we keep the decision and the computed score. -/
inductive NResult where
  | noData
  | invalidPrice (p : ℚ)
  | peUnavailable
  | typeErr
  | zeroDiv
  | score (v : ℚ)
deriving DecidableEq

/-- Per-ticker input of `calculate_n_score`: the symbol, whether the 5y
history came back empty, the last close, the 5-year high, and the info
fields. -/
structure TickIn where
  sym : String
  histEmpty : Bool
  currentPrice : ℚ
  fiveYearHigh : ℚ
  info : NInfo
deriving DecidableEq

/-- Shallow embedding of `calculate_n_score` (src/run.py lines 139-211),
threading the `Globals` benchmark reference explicitly.  Mirrors the source:
empty history and non-positive price return early; `trailingPE` defaults to
20 when the key is absent; `trailingPegRatio` defaults to 1.0 when absent or
`None`; a `trailingPE` that is present as `None` or non-positive is the
"P/E ratio not available or invalid" error; the SPY branch records the
benchmark reference; `forwardPE` defaults to the resolved trailing P/E; GLD
uses `pe_ratio_sp500 * n**3`; every other ticker uses the general formula,
with Python `ZeroDivisionError` on a zero denominator and `TypeError` when
`forwardPE` is present as `None` (it is cubed). -/
def calculate_n_score (t : TickIn) (g : SPRef) : NResult × SPRef :=
  if t.histEmpty then (.noData, g)
  else if t.currentPrice ≤ 0 then (.invalidPrice t.currentPrice, g)
  else
    let n := t.fiveYearHigh / t.currentPrice
    let peF := pyGetD t.info.trailingPE 20
    let pegv := (pyGetD t.info.trailingPeg 1).getD 1
    match peF with
    | none => (.peUnavailable, g)
    | some pe =>
      if pe ≤ 0 then (.peUnavailable, g)
      else
        let g1 := if t.sym = "SPY" then ⟨pe, n⟩ else g
        let fwF := t.info.forwardPE.getD (some pe)
        if t.sym = "GLD" then (.score (g1.pe * n ^ 3), g1)
        else
          match fwF with
          | none => (.typeErr, g1)
          | some fw =>
            if pegv + 0.5 = 0 ∨ g1.pe = 0 ∨ fw = 0 then (.zeroDiv, g1)
            else
              (.score ((1.5 / (pegv + 0.5)) ^ 2 * 250 / g1.pe * pe ^ 3 / fw ^ 3
                * n ^ 2 * g1.nv), g1)

/-- The `main` loop of src/run.py (lines 246-265) restricted to its effect on
scores and on the benchmark reference: each ticker is processed sequentially
and the `Globals` state is threaded through. -/
def run_batch : List TickIn → SPRef → List NResult × SPRef
  | [], g => ([], g)
  | t :: ts, g =>
    let p := calculate_n_score t g
    let q := run_batch ts p.2
    (p.1 :: q.1, q.2)

/-! ## Strategy B: the fundamentals composite scorers
(`long_term_investment_score` in src/run.py and src/run2.py,
`long_term_investment_score_v3` in src/run3.py) -/

/-- The per-ticker fundamentals snapshot read by the Strategy B scorers.
`currentPrice` and `ath` are the resolved price and all-time-high (the
history-fetch fallbacks of the sources are upstream of the arithmetic being
verified); the remaining fields are raw `info` dict entries. -/
structure Snap where
  currentPrice : ℚ
  ath : ℚ
  forwardPE : Option (Option ℚ)
  trailingPE : Option (Option ℚ)
  pegRaw : Option (Option ℚ)
  earningsGrowth : Option (Option ℚ)
  revenueGrowth : Option (Option ℚ)
  returnOnEquity : Option (Option ℚ)
  returnOnAssets : Option (Option ℚ)
  freeCashflow : Option (Option ℚ)
  marketCap : Option (Option ℚ)
  debtToEquity : Option (Option ℚ)
deriving DecidableEq

/-- What a Strategy B scorer returns on success: the clamped score, the
daily investment amount, the derived PEG and the drawdown percentage (all
of which appear in the returned metrics of the sources). -/
structure BResult where
  score : ℚ
  daily : ℚ
  peg : ℚ
  dd : ℚ
deriving DecidableEq

/-- PEG fallback of src/run.py lines 38-41 (identical in src/run3.py lines
33-36): `growth = (info.get('earningsGrowth') or 0.1) * 100`;
`pe_use = forward_pe or trailing_pe or 20`;
`peg = pe_use / growth if growth > 0 else 99`. -/
def peg_fb (eg fpe tpe : Option ℚ) : ℚ :=
  let growth := pyOrQ eg (0.1) * 100
  let pe_use := pyOrQ (pyOr fpe tpe) 20
  if 0 < growth then pe_use / growth else 99

/-- PEG resolution of src/run.py lines 37-41: keep `pegRatio` when present
and positive, otherwise use the fallback `peg_fb`. -/
def peg_resolve (p eg fpe tpe : Option ℚ) : ℚ :=
  match p with
  | some v => if 0 < v then v else peg_fb eg fpe tpe
  | none => peg_fb eg fpe tpe

/-- PEG fallback of src/run2.py lines 23-26: the growth default 0.1 is a
`.get` default (applied only when the key is absent; a present `None`
raises `TypeError` at `* 100`), there is no trailing `or 20` on the P/E,
and a missing P/E also yields the sentinel 99. -/
def peg_fb2 (egF : Option (Option ℚ)) (fpe tpe : Option ℚ) : Except String ℚ :=
  match egF.getD (some (0.1)) with
  | none => .error "TypeError"
  | some g =>
    let growth := g * 100
    let peu := pyOr fpe tpe
    .ok (if 0 < growth ∧ truthy peu then peu.getD 0 / growth else 99)

/-- PEG resolution of src/run2.py lines 21-26. -/
def peg_resolve2 (p : Option ℚ) (egF : Option (Option ℚ)) (fpe tpe : Option ℚ) :
    Except String ℚ :=
  match p with
  | some v => if 0 < v then .ok v else peg_fb2 egF fpe tpe
  | none => peg_fb2 egF fpe tpe

/-- FCF yield of src/run.py line 46 (identical in src/run3.py line 41):
`fcf / market_cap * 100 if fcf and market_cap and fcf > 0 else None`. -/
def fcf_yield_calc (fcf mcap : Option ℚ) : Option ℚ :=
  if truthy fcf ∧ truthy mcap ∧ 0 < fcf.getD 0 then
    some (fcf.getD 0 / mcap.getD 0 * 100)
  else none

/-- FCF yield of src/run2.py line 29: no positivity requirement on `fcf`. -/
def fcf_yield_calc2 (fcf mcap : Option ℚ) : Option ℚ :=
  if truthy fcf ∧ truthy mcap then
    some (fcf.getD 0 / mcap.getD 0 * 100)
  else none

/-- ROE/ROIC term of src/run.py line 60: `score += 100 * roic_proxy`.
A missing proxy (`None`) raises `TypeError`. -/
def roic_score1 (r : Option ℚ) : Except String ℚ :=
  match r with
  | some v => .ok (100 * v)
  | none => .error "TypeError"

/-- ROE/ROIC term of src/run3.py lines 52-54 (tiered).  The very first
comparison `roic_proxy > 0.25` raises `TypeError` when the proxy is
`None`. -/
def roic_score3 (r : Option ℚ) : Except String ℚ :=
  match r with
  | none => .error "TypeError"
  | some v =>
    .ok (if v > 0.25 then 25 else if v > 0.18 then 20 else if v > 0.10 then 10 else 0)

/-- ROE term of src/run2.py lines 43-45 (tiered, thresholds 0.20/0.15/0.10).
The comparison `roic > 0.20` raises `TypeError` when `returnOnEquity` is
missing; in the source this happens outside the try block. -/
def roic_score2 (r : Option ℚ) : Except String ℚ :=
  match r with
  | none => .error "TypeError"
  | some v =>
    .ok (if v > 0.20 then 25 else if v > 0.15 then 20 else if v > 0.10 then 10 else 0)

/-- FCF yield term of src/run.py line 66: `score += 3 * fcf_yield`.
An unavailable yield (`None`) raises `TypeError`. -/
def fcf_score1 (y : Option ℚ) : Except String ℚ :=
  match y with
  | some v => .ok (3 * v)
  | none => .error "TypeError"

/-- FCF yield term of src/run3.py lines 57-59: tiered with truthiness
guards, so an unavailable yield contributes 0 without raising. -/
def fcf_score3 (y : Option ℚ) : ℚ :=
  if truthy y ∧ y.getD 0 > 6 then 20
  else if truthy y ∧ y.getD 0 > 4 then 12
  else if truthy y ∧ y.getD 0 > 2 then 6
  else 0

/-- PEG term of src/run.py lines 69-72 (identical in src/run3.py lines
62-65). -/
def peg_score (p : ℚ) : ℚ :=
  if p < 1 then 15 else if p < 1.3 then 10 else if p < 1.8 then 5
  else if p > 3 then -8 else 0

/-- PEG term of src/run2.py lines 53-56. -/
def peg_score2 (p : ℚ) : ℚ :=
  if p < 1 then 20 else if p < 1.3 then 15 else if p < 1.8 then 8
  else if p > 3 then -10 else 0

/-- Balance-sheet term of src/run.py lines 75-76 (identical in src/run3.py
lines 68-69): truthiness-guarded tiers on `debtToEquity`, so a missing
value contributes 0. -/
def balance_score (d : Option ℚ) : ℚ :=
  if truthy d ∧ d.getD 0 < 50 then 10
  else if truthy d ∧ d.getD 0 < 100 then 5
  else 0

/-- Balance-sheet term of src/run2.py lines 59-60, on the `debtToEquity/100`
proxy (a plain float by then; Python float truthiness is nonzeroness). -/
def balance_score2 (d : ℚ) : ℚ :=
  if d ≠ 0 ∧ d < 1 then 10 else if d ≠ 0 ∧ d < 2 then 5 else 0

/-- Growth-outlook term of src/run.py lines 79-80 (identical in src/run3.py
lines 72-73), on the forward/trailing ratio and the earnings growth in
percent. -/
def growth_score (ftr eg : ℚ) : ℚ :=
  if ftr < 0.9 ∧ eg > 15 then 10 else if ftr < 1 ∧ eg > 8 then 6 else 0

/-- Growth-outlook term of src/run2.py lines 63-64: uses revenue growth. -/
def growth_score2 (ftr rg : ℚ) : ℚ :=
  if ftr < 0.9 ∧ rg > 15 then 10 else if ftr < 1 ∧ rg > 10 then 6 else 0

/-- Drawdown-from-ATH term of src/run.py lines 83-89 (identical in
src/run3.py lines 76-82): +40/+35/+30/+22/+15/+8/+3 at strict thresholds
70/60/50/40/30/20/10, else 0. -/
def dd_score (d : ℚ) : ℚ :=
  if d > 70 then 40 else if d > 60 then 35 else if d > 50 then 30
  else if d > 40 then 22 else if d > 30 then 15 else if d > 20 then 8
  else if d > 10 then 3 else 0

/-- Drawdown term of src/run2.py lines 67-69. -/
def dd_score2 (d : ℚ) : ℚ :=
  if d > 50 then 15 else if d > 30 then 8 else if d > 15 then 4 else 0

/-- Daily-amount mapping shared by the three scorers (src/run.py lines
92-95, src/run2.py lines 74-80, src/run3.py lines 85-88):
`multiplier = score/100*mult`, `daily = base*multiplier`, capped at `ceil`,
forced to 0 below the score floor `flr`. -/
def daily_amt (base mult ceil flr score : ℚ) : ℚ :=
  let m := score / 100 * mult
  let d := base * m
  let d2 := min d ceil
  if score < flr then 0 else d2

/-- Shallow embedding of `long_term_investment_score` (src/run.py lines
18-137).  Pure metric derivations are `let`s; the steps that can raise in
Python are sequenced in source order: the drawdown division (line 32), the
`revenueGrowth`/`earningsGrowth` defaults multiplied by 100 (lines 49-50,
`TypeError` when present as `None`), the linear ROE/ROIC term (line 60) and
the linear FCF-yield term (line 66).  The source wraps everything in
`try/except`, returning an error string; the `Except` error models that
returned error result. -/
def long_term_investment_score (s : Snap) (base_daily : ℚ) : Except String BResult :=
  if s.ath = 0 then .error "ZeroDivisionError"
  else
    let dd := (s.ath - s.currentPrice) / s.ath * 100
    let fpe := pyGet s.forwardPE
    let tpe := pyGet s.trailingPE
    let peg := peg_resolve (pyGet s.pegRaw) (pyGet s.earningsGrowth) fpe tpe
    let roic := pyOr (pyGet s.returnOnEquity) (pyGet s.returnOnAssets)
    let fy := fcf_yield_calc (pyGet s.freeCashflow) (pyGet s.marketCap)
    let dte := pyGet s.debtToEquity
    match mulO (pyGetD s.revenueGrowth 0) 100 with
    | .error e => .error e
    | .ok _rg =>
      match mulO (pyGetD s.earningsGrowth 0) 100 with
      | .error e => .error e
      | .ok eg =>
        let ftr := if truthy fpe ∧ truthy tpe then fpe.getD 0 / tpe.getD 0 else 1
        match roic_score1 roic with
        | .error e => .error e
        | .ok t1 =>
          match fcf_score1 fy with
          | .error e => .error e
          | .ok t2 =>
            let s0 := t1 + t2 + peg_score peg + balance_score dte
              + growth_score ftr eg + dd_score dd
            let sc := max 0 (min 100 s0)
            .ok ⟨sc, daily_amt base_daily 6 100 40 sc, peg, dd⟩

/-- Shallow embedding of `long_term_investment_score_v3` (src/run3.py lines
13-130): identical to the run.py variant except that the ROE/ROIC and FCF
terms are tiered; the FCF tiers are truthiness-guarded but the first ROIC
comparison still raises `TypeError` on `None`. -/
def long_term_investment_score_v3 (s : Snap) (base_daily : ℚ) : Except String BResult :=
  if s.ath = 0 then .error "ZeroDivisionError"
  else
    let dd := (s.ath - s.currentPrice) / s.ath * 100
    let fpe := pyGet s.forwardPE
    let tpe := pyGet s.trailingPE
    let peg := peg_resolve (pyGet s.pegRaw) (pyGet s.earningsGrowth) fpe tpe
    let roic := pyOr (pyGet s.returnOnEquity) (pyGet s.returnOnAssets)
    let fy := fcf_yield_calc (pyGet s.freeCashflow) (pyGet s.marketCap)
    let dte := pyGet s.debtToEquity
    match mulO (pyGetD s.revenueGrowth 0) 100 with
    | .error e => .error e
    | .ok _rg =>
      match mulO (pyGetD s.earningsGrowth 0) 100 with
      | .error e => .error e
      | .ok eg =>
        let ftr := if truthy fpe ∧ truthy tpe then fpe.getD 0 / tpe.getD 0 else 1
        match roic_score3 roic with
        | .error e => .error e
        | .ok t1 =>
          let s0 := t1 + fcf_score3 fy + peg_score peg + balance_score dte
            + growth_score ftr eg + dd_score dd
          let sc := max 0 (min 100 s0)
          .ok ⟨sc, daily_amt base_daily 6 100 40 sc, peg, dd⟩

/-- Shallow embedding of `long_term_investment_score` from src/run2.py
(lines 5-96): run2 PEG fallback, ROE only as moat proxy, FCF yield without
positivity check, `debtToEquity/100` proxy (raises `TypeError` when the key
is absent), growth outlook on revenue growth, milder drawdown tiers, and
the 5x/50/30 daily-amount configuration.  In this source the scoring after
the derivations runs outside the try block (a `TypeError` there would crash
the script rather than be returned); both are modelled as `Except` errors
since no claim distinguishes them. -/
def long_term_investment_score_v2 (s : Snap) (base_daily : ℚ) : Except String BResult :=
  if s.ath = 0 then .error "ZeroDivisionError"
  else
    let dd := (s.ath - s.currentPrice) / s.ath * 100
    let fpe := pyGet s.forwardPE
    let tpe := pyGet s.trailingPE
    match peg_resolve2 (pyGet s.pegRaw) s.earningsGrowth fpe tpe with
    | .error e => .error e
    | .ok peg =>
      let roic := pyGet s.returnOnEquity
      let fy := fcf_yield_calc2 (pyGet s.freeCashflow) (pyGet s.marketCap)
      match divO (pyGet s.debtToEquity) 100 with
      | .error e => .error e
      | .ok dte =>
        match mulO (pyGetD s.revenueGrowth 0) 100 with
        | .error e => .error e
        | .ok rg =>
          match mulO (pyGetD s.earningsGrowth 0) 100 with
          | .error e => .error e
          | .ok _eg =>
            let ftr := if truthy fpe ∧ truthy tpe then fpe.getD 0 / tpe.getD 0 else 1
            match roic_score2 roic with
            | .error e => .error e
            | .ok t1 =>
              let s0 := t1 + fcf_score3 fy + peg_score2 peg + balance_score2 dte
                + growth_score2 ftr rg + dd_score2 dd
              let sc := max 0 (min 100 s0)
              .ok ⟨sc, daily_amt base_daily 5 50 30 sc, peg, dd⟩

/-! ## Macro regime classifier (src/run5.py and src/run6.py) -/

/-- IEEE-style float values as produced by the pandas/numpy pipeline: `nan`
(e.g. a rolling statistic with fewer than `min_periods` samples), signed
infinity (numpy division of a nonzero value by zero), or a finite value. -/
inductive PyFloat where
  | nan
  | inf (pos : Bool)
  | num (q : ℚ)
deriving DecidableEq

/-- `pd.isna` on a float scalar. -/
def PyFloat.isna : PyFloat → Bool
  | nan => true
  | _ => false

/-- `x > c` for a float `x` and a finite constant `c`: false for `nan`. -/
def PyFloat.gtc : PyFloat → ℚ → Bool
  | nan, _ => false
  | inf p, _ => p
  | num q, c => decide (c < q)

/-- Float subtraction with `nan`/infinity propagation. -/
def PyFloat.fsub : PyFloat → PyFloat → PyFloat
  | nan, _ => nan
  | _, nan => nan
  | inf p, inf q => if p = q then nan else inf p
  | inf p, num _ => inf p
  | num _, inf q => inf (!q)
  | num a, num b => num (a - b)

/-- Float division, numpy semantics: `nan` propagates, `0/0` is `nan`,
nonzero over zero is signed infinity. -/
def PyFloat.fdiv : PyFloat → PyFloat → PyFloat
  | nan, _ => nan
  | _, nan => nan
  | inf _, inf _ => nan
  | inf p, num b => if b < 0 then inf (!p) else inf p
  | num _, inf _ => num 0
  | num a, num b =>
    if b = 0 then (if a = 0 then nan else inf (decide (0 < a)))
    else num (a / b)

/-- The inputs of the macro decision stage, as read off the aligned series:
the length of the Buffett (market/GDP) series, its last value, the last
rolling mean and rolling standard deviation (window 2520, `min_periods`
500 — `nan` whenever fewer than 500 samples exist), the last 10y-2y yield
spread, and the S&P/gold price quotient. -/
structure MacroIn where
  sampleLen : ℕ
  currentVal : PyFloat
  rollMean : PyFloat
  rollStd : PyFloat
  yieldSpread : ℚ
  spGold : ℚ
deriving DecidableEq

/-- What the macro report presents: the z-score line (`none` is the
"N/A (limited history)" text of src/run5.py; `some f` is the numeric
formatting of `f`, including the literal text "nan" for a `nan` value),
the regime label and the equities/gold/cash allocation. -/
structure MacroRep where
  zOut : Option PyFloat
  regime : String
  alloc : ℤ × ℤ × ℤ
deriving DecidableEq

/-- Z-score guard of src/run5.py lines 127-134: `nan` when the rolling std
is `nan` or zero, otherwise `(current - mean) / std`. -/
def run5_z (m : MacroIn) : PyFloat :=
  if m.rollStd.isna ∨ m.rollStd = .num 0 then .nan
  else (m.currentVal.fsub m.rollMean).fdiv m.rollStd

/-- Decision engine of src/run5.py lines 139-153, evaluated top-down. -/
def run5_regime (z : PyFloat) (sp rt : ℚ) : String × (ℤ × ℤ × ℤ) :=
  if z.isna then ("INSUFFICIENT HISTORY FOR Z-SCORE", (33, 33, 34))
  else if z.gtc 2 then ("EXCESSIVE BUBBLE", (20, 30, 50))
  else if sp < 0 then ("RECESSION WARNING", (10, 50, 40))
  else if rt < 1 then ("VALUE RECOVERY", (70, 20, 10))
  else ("GROWTH / MOMENTUM", (60, 20, 20))

/-- The z-score and regime portion of `run_macro_analysis` in src/run5.py
(lines 122-174): below the overlap minimum `252 * 3 = 756` the function
returns an error message; otherwise the guarded z-score feeds the decision
engine, and the z line prints "N/A (limited history)" instead of a number
whenever the z-score is `nan`. -/
def run5_analysis (m : MacroIn) : Except String MacroRep :=
  if m.sampleLen < 756 then .error "insufficient overlapping data"
  else
    let z := run5_z m
    let rg := run5_regime z m.yieldSpread m.spGold
    .ok ⟨if z.isna then none else some z, rg.1, rg.2⟩

/-- Decision matrix of src/run6.py lines 97-106, evaluated top-down.  There
is no `nan` guard: a `nan` z-score fails every comparison. -/
def run6_regime (z : PyFloat) (sp rt : ℚ) : String × (ℤ × ℤ × ℤ) :=
  if z.gtc 2 then ("EXCESSIVE BUBBLE", (20, 30, 50))
  else if sp < 0 then ("RECESSION WARNING", (10, 50, 40))
  else if rt < 1 then ("VALUE RECOVERY", (70, 20, 10))
  else if 1.8 < rt ∧ rt ≤ 2.2 then ("LATE CYCLE", (40, 20, 40))
  else ("EARLY/MID CYCLE GROWTH", (60, 20, 20))

/-- The z-score and regime portion of `run_macro_analysis` in src/run6.py
(lines 84-126): the z-score `(current - mean) / std` is computed without
any sample-count or `nan` guard and is always formatted into the report
(line 113), `nan` included. -/
def run6_analysis (m : MacroIn) : MacroRep :=
  let z := (m.currentVal.fsub m.rollMean).fdiv m.rollStd
  let rg := run6_regime z m.yieldSpread m.spGold
  ⟨some z, rg.1, rg.2⟩

/-! ## Theorems -/

/-- C8: the Strategy B drawdown term awards exactly +40/+35/+30/+22/+15/+8/+3
at drawdown thresholds of strictly more than 70/60/50/40/30/20/10 percent
respectively and 0 otherwise; in particular `ath = 100`, `currentPrice = 45`
gives `drawdownPct = 55` and a contribution of exactly 30. -/
theorem drawdown_tiers :
    (∀ d : ℚ, 70 < d → dd_score d = 40) ∧
    (∀ d : ℚ, 60 < d → d ≤ 70 → dd_score d = 35) ∧
    (∀ d : ℚ, 50 < d → d ≤ 60 → dd_score d = 30) ∧
    (∀ d : ℚ, 40 < d → d ≤ 50 → dd_score d = 22) ∧
    (∀ d : ℚ, 30 < d → d ≤ 40 → dd_score d = 15) ∧
    (∀ d : ℚ, 20 < d → d ≤ 30 → dd_score d = 8) ∧
    (∀ d : ℚ, 10 < d → d ≤ 20 → dd_score d = 3) ∧
    (∀ d : ℚ, d ≤ 10 → dd_score d = 0) ∧
    (((100 : ℚ) - 45) / 100 * 100 = 55 ∧ dd_score 55 = 30) := by
  refine ⟨?_, ?_, ?_, ?_, ?_, ?_, ?_, ?_, by norm_num, by norm_num [dd_score]⟩ <;>
    { intro d h
      try intro h2
      simp only [dd_score]
      split_ifs <;> first | rfl | linarith }

/-- Witness for C8: concrete drawdowns in each tier. -/
theorem drawdown_tiers_w :
    dd_score 75 = 40 ∧ dd_score 65 = 35 ∧ dd_score 55 = 30 ∧ dd_score 45 = 22 ∧
    dd_score 35 = 15 ∧ dd_score 25 = 8 ∧ dd_score 15 = 3 ∧ dd_score 5 = 0 :=
  ⟨drawdown_tiers.1 75 (by norm_num),
   drawdown_tiers.2.1 65 (by norm_num) (by norm_num),
   drawdown_tiers.2.2.1 55 (by norm_num) (by norm_num),
   drawdown_tiers.2.2.2.1 45 (by norm_num) (by norm_num),
   drawdown_tiers.2.2.2.2.1 35 (by norm_num) (by norm_num),
   drawdown_tiers.2.2.2.2.2.1 25 (by norm_num) (by norm_num),
   drawdown_tiers.2.2.2.2.2.2.1 15 (by norm_num) (by norm_num),
   drawdown_tiers.2.2.2.2.2.2.2.1 5 (by norm_num)⟩

/-- C5: both macro regime classifiers evaluate their rules top-down with
first match winning: whenever the z-score exceeds 2.0 and the yield spread
is negative, the regime is the bubble regime, not the recession warning. -/
theorem regime_priority_bubble :
    ∀ z sp rt : ℚ, 2 < z → sp < 0 →
      (run6_regime (.num z) sp rt).1 = "EXCESSIVE BUBBLE" ∧
      (run5_regime (.num z) sp rt).1 = "EXCESSIVE BUBBLE" := by
  intro z sp rt hz hsp
  constructor
  · simp [run6_regime, PyFloat.gtc, hz]
  · simp [run5_regime, PyFloat.isna, PyFloat.gtc, hz]

/-- Witness for C5: z = 2.5 and yield spread = -0.1 resolve to the bubble
regime in both classifiers. -/
theorem regime_priority_bubble_w :
    (run6_regime (.num 2.5) (-0.1) 1.5).1 = "EXCESSIVE BUBBLE" ∧
    (run5_regime (.num 2.5) (-0.1) 1.5).1 = "EXCESSIVE BUBBLE" :=
  regime_priority_bubble 2.5 (-0.1) 1.5 (by norm_num) (by norm_num)

/-- C2: for a non-benchmark, non-commodity ticker with positive price,
available positive trailing P/E, resolved PEG and resolved forward P/E,
the Strategy A score is exactly
`((1.5/(pegRatio+0.5))^2) * (250/benchmarkPE) * (trailingPE^3/forwardPE^3)
 * n^2 * benchmarkN` with `n = historicalHigh/currentPrice`. -/
theorem strategyA_general_formula (t : TickIn) (g : SPRef) (pe fw p : ℚ)
    (hspy : t.sym ≠ "SPY") (hgld : t.sym ≠ "GLD")
    (hhist : t.histEmpty = false) (hcp : 0 < t.currentPrice)
    (hpe : t.info.trailingPE = some (some pe)) (hpe0 : 0 < pe)
    (hfw : t.info.forwardPE = some (some fw)) (hfw0 : fw ≠ 0)
    (hpeg : (pyGetD t.info.trailingPeg 1).getD 1 = p) (hp : p + 0.5 ≠ 0)
    (hbpe : g.pe ≠ 0) :
    (calculate_n_score t g).1 =
      .score ((1.5 / (p + 0.5)) ^ 2 * (250 / g.pe) * (pe ^ 3 / fw ^ 3)
        * (t.fiveYearHigh / t.currentPrice) ^ 2 * g.nv) := by
  unfold calculate_n_score
  rw [hhist]
  simp only [pyGetD] at hpeg
  simp only [Bool.false_eq_true, if_false, if_neg (not_le.mpr hcp), pyGetD, hpe, hfw,
    Option.getD_some, if_neg (not_le.mpr hpe0), if_neg hspy, if_neg hgld, hpeg]
  rw [if_neg (by push_neg; exact ⟨hp, hbpe, hfw0⟩)]
  ring_nf

/-- Witness for C2: a generic equity with trailing P/E 30, forward P/E 25,
PEG 1 against the default benchmark reference. -/
theorem strategyA_general_formula_w :
    (calculate_n_score
      ⟨"AAPL", false, 100, 200, ⟨some (some 30), some (some 1), some (some 25)⟩⟩
      ⟨25, 1⟩).1 =
      .score ((1.5 / (1 + 0.5)) ^ 2 * (250 / 25) * ((30 : ℚ) ^ 3 / (25 : ℚ) ^ 3)
        * ((200 : ℚ) / 100) ^ 2 * 1) :=
  strategyA_general_formula
    ⟨"AAPL", false, 100, 200, ⟨some (some 30), some (some 1), some (some 25)⟩⟩
    ⟨25, 1⟩ 30 25 1 (by decide) (by decide) rfl (by norm_num) rfl (by norm_num) rfl
    (by norm_num) rfl (by norm_num) (by norm_num)

/-- C9: for the commodity/hedge ticker GLD the Strategy A score bypasses the
general formula and equals `benchmarkPE * n^3` with
`n = historicalHigh/currentPrice` and the current benchmark reference P/E. -/
theorem gld_commodity_formula (t : TickIn) (g : SPRef) (pe : ℚ)
    (hgld : t.sym = "GLD") (hhist : t.histEmpty = false) (hcp : 0 < t.currentPrice)
    (hpe : pyGetD t.info.trailingPE 20 = some pe) (hpe0 : 0 < pe) :
    (calculate_n_score t g).1 =
      .score (g.pe * (t.fiveYearHigh / t.currentPrice) ^ 3) := by
  unfold calculate_n_score
  rw [hhist]
  simp only [Bool.false_eq_true, if_false, if_neg (not_le.mpr hcp), hpe,
    if_neg (not_le.mpr hpe0), hgld]
  simp only [if_neg (by decide : ¬("GLD" : String) = "SPY"),
    if_pos (rfl : ("GLD" : String) = "GLD"), if_true, ite_true]

/-- Witness for C9: GLD with an absent trailing P/E (defaulting to 20),
price 150 and five-year high 300, against the default benchmark. -/
theorem gld_commodity_formula_w :
    (calculate_n_score ⟨"GLD", false, 150, 300, ⟨none, none, none⟩⟩ ⟨25, 1⟩).1 =
      .score (25 * ((300 : ℚ) / 150) ^ 3) :=
  gld_commodity_formula ⟨"GLD", false, 150, 300, ⟨none, none, none⟩⟩ ⟨25, 1⟩ 20
    rfl rfl (by norm_num) rfl (by norm_num)

/-- C10: in the Strategy A scorer a snapshot with no `trailingPE` entry at
all is scored with the default trailing P/E of 20 (and a missing
`forwardPE` then defaults to that resolved trailing P/E); the
"P/E ratio not available or invalid" outcome occurs exactly when
`trailingPE` is present with value `None` or a value that is not
positive. -/
theorem trailingPE_default_and_error :
    (∀ (t : TickIn) (g : SPRef) (p : ℚ), t.histEmpty = false → 0 < t.currentPrice →
       t.sym ≠ "SPY" → t.sym ≠ "GLD" →
       t.info.trailingPE = none → t.info.forwardPE = none →
       (pyGetD t.info.trailingPeg 1).getD 1 = p → p + 0.5 ≠ 0 → g.pe ≠ 0 →
       (calculate_n_score t g).1 =
         .score ((1.5 / (p + 0.5)) ^ 2 * 250 / g.pe * (20 : ℚ) ^ 3 / (20 : ℚ) ^ 3
           * (t.fiveYearHigh / t.currentPrice) ^ 2 * g.nv)) ∧
    (∀ (t : TickIn) (g : SPRef), t.histEmpty = false → 0 < t.currentPrice →
       ((calculate_n_score t g).1 = .peUnavailable ↔
         t.info.trailingPE = some none ∨
           ∃ v, t.info.trailingPE = some (some v) ∧ v ≤ 0)) := by
  constructor
  · intro t g p hhist hcp hspy hgld hpe hfw hpeg hp hbpe
    unfold calculate_n_score
    rw [hhist]
    simp only [pyGetD] at hpeg
    simp only [Bool.false_eq_true, if_false, if_neg (not_le.mpr hcp), pyGetD, hpe, hfw,
      Option.getD_none, Option.getD_some, if_neg hspy, if_neg hgld, hpeg,
      if_neg (by norm_num : ¬(20 : ℚ) ≤ 0)]
    rw [if_neg (by push_neg; exact ⟨hp, hbpe, by norm_num⟩)]
  · intro t g hhist hcp
    have hne : ∀ pe : ℚ, pyGetD t.info.trailingPE 20 = some pe → ¬ pe ≤ 0 →
        (calculate_n_score t g).1 ≠ .peUnavailable := by
      intro pe hpe hp0
      unfold calculate_n_score
      rw [hhist]
      simp only [Bool.false_eq_true, if_false, if_neg (not_le.mpr hcp), hpe, if_neg hp0]
      rcases hfw : t.info.forwardPE.getD (some pe) with _ | fw <;>
        simp only [hfw] <;> split_ifs <;> simp
    constructor
    · intro h
      rcases hte : t.info.trailingPE with _ | ov
      · exact absurd h (hne 20 (by simp [pyGetD, hte]) (by norm_num))
      · rcases ov with _ | v
        · exact Or.inl rfl
        · by_cases hv : v ≤ 0
          · exact Or.inr ⟨v, rfl, hv⟩
          · exact absurd h (hne v (by simp [pyGetD, hte]) hv)
    · rintro (hte | ⟨v, hte, hv⟩)
      · unfold calculate_n_score
        rw [hhist]
        simp [pyGetD, hte, if_neg (not_le.mpr hcp)]
      · unfold calculate_n_score
        rw [hhist]
        simp [pyGetD, hte, if_neg (not_le.mpr hcp), hv]

/-- Witness for C10: a ticker with no `trailingPE` key is scored with the
default 20 (also substituted for the missing `forwardPE`); a ticker whose
`trailingPE` key is present with value `None` satisfies the error
characterization. -/
theorem trailingPE_default_and_error_w :
    (calculate_n_score ⟨"MSFT", false, 100, 150, ⟨none, none, none⟩⟩ ⟨25, 1⟩).1 =
      .score ((1.5 / (1 + 0.5)) ^ 2 * 250 / 25 * (20 : ℚ) ^ 3 / (20 : ℚ) ^ 3
        * ((150 : ℚ) / 100) ^ 2 * 1) ∧
    ((calculate_n_score ⟨"NVDA", false, 100, 150, ⟨some none, none, none⟩⟩ ⟨25, 1⟩).1 =
        .peUnavailable ↔
      (some none : Option (Option ℚ)) = some none ∨
        ∃ v, (some none : Option (Option ℚ)) = some (some v) ∧ v ≤ 0) :=
  ⟨trailingPE_default_and_error.1 ⟨"MSFT", false, 100, 150, ⟨none, none, none⟩⟩ ⟨25, 1⟩ 1
      rfl (by norm_num) (by decide) (by decide) rfl rfl rfl (by norm_num) (by norm_num),
   trailingPE_default_and_error.2 ⟨"NVDA", false, 100, 150, ⟨some none, none, none⟩⟩ ⟨25, 1⟩
      rfl (by norm_num)⟩

/-- Processing a non-SPY ticker never touches the benchmark reference. -/
theorem calc_n_keeps_globals (t : TickIn) (g : SPRef) (h : t.sym ≠ "SPY") :
    (calculate_n_score t g).2 = g := by
  unfold calculate_n_score
  dsimp only
  repeat' split
  all_goals simp_all

/-- A batch with no SPY ticker scores every ticker against the incoming
benchmark reference and leaves it unchanged. -/
theorem run_batch_append_no_spy (xs ys : List TickIn) (g : SPRef)
    (h : ∀ t ∈ xs, t.sym ≠ "SPY") :
    run_batch (xs ++ ys) g =
      ((xs.map fun t => (calculate_n_score t g).1) ++ (run_batch ys g).1,
        (run_batch ys g).2) := by
  induction xs with
  | nil => simp [run_batch]
  | cons a as ih =>
    have ha : a.sym ≠ "SPY" := h a (List.mem_cons_self a as)
    have has : ∀ t ∈ as, t.sym ≠ "SPY" := fun t ht => h t (List.mem_cons_of_mem a ht)
    simp [run_batch, calc_n_keeps_globals a g ha, ih has]

/-- Processing SPY with a resolved positive trailing P/E records the
benchmark reference `(trailingPE, n)`, independently of its prior value. -/
theorem calc_n_spy_write (t : TickIn) (g : SPRef) (pe : ℚ)
    (hs : t.sym = "SPY") (hh : t.histEmpty = false) (hc : 0 < t.currentPrice)
    (hpe : pyGetD t.info.trailingPE 20 = some pe) (hp : 0 < pe) :
    (calculate_n_score t g).2 = ⟨pe, t.fiveYearHigh / t.currentPrice⟩ := by
  unfold calculate_n_score
  rw [hh]
  simp only [Bool.false_eq_true, if_false, if_neg (not_le.mpr hc), hpe,
    if_neg (not_le.mpr hp), hs, if_pos (rfl : ("SPY" : String) = "SPY"),
    if_neg (by decide : ¬("SPY" : String) = "GLD")]
  rcases t.info.forwardPE.getD (some pe) with _ | fw
  · rfl
  · dsimp only
    split_ifs <;> rfl

/-- C3: the benchmark reference starts at the documented default
`pe = 25.0, n = 1.0`, is written exactly once per run — when the SPY ticker
is processed — and is read-only afterward: in any input ordering
`pre ++ SPY :: post` (with SPY nowhere else), every ticker of `pre` is
scored against the default baseline `⟨25, 1⟩`, every ticker of `post` is
scored against SPY's recorded `(trailingPE, n)`, and the final reference is
exactly that recorded pair. -/
theorem benchmark_write_once (pre post : List TickIn) (spy : TickIn) (pe : ℚ)
    (h1 : ∀ t ∈ pre, t.sym ≠ "SPY") (h2 : ∀ t ∈ post, t.sym ≠ "SPY")
    (hs : spy.sym = "SPY") (hh : spy.histEmpty = false) (hc : 0 < spy.currentPrice)
    (hpe : pyGetD spy.info.trailingPE 20 = some pe) (hp : 0 < pe) :
    run_batch (pre ++ spy :: post) ⟨25, 1⟩ =
      ((pre.map fun t => (calculate_n_score t ⟨25, 1⟩).1)
        ++ (calculate_n_score spy ⟨25, 1⟩).1
          :: post.map (fun t =>
            (calculate_n_score t ⟨pe, spy.fiveYearHigh / spy.currentPrice⟩).1),
        ⟨pe, spy.fiveYearHigh / spy.currentPrice⟩) := by
  have hw := calc_n_spy_write spy ⟨25, 1⟩ pe hs hh hc hpe hp
  have hpost := run_batch_append_no_spy post []
    ⟨pe, spy.fiveYearHigh / spy.currentPrice⟩ h2
  rw [run_batch_append_no_spy pre (spy :: post) ⟨25, 1⟩ h1]
  simp only [run_batch, hw]
  simp only [List.append_nil] at hpost
  rw [hpost]
  simp [run_batch]

/-- Witness for C3: a three-ticker run with SPY in the middle; the ticker
before SPY is scored against the default baseline, the ticker after it
against SPY's recorded reference, which is also the final state. -/
theorem benchmark_write_once_w :
    run_batch
      [⟨"QQQ", false, 100, 150, ⟨some (some 30), some (some 1), some (some 28)⟩⟩,
       ⟨"SPY", false, 500, 600, ⟨some (some 30), some (some 1), some (some 28)⟩⟩,
       ⟨"NVDA", false, 100, 300, ⟨some (some 40), some (some 2), some (some 35)⟩⟩]
      ⟨25, 1⟩ =
      (([⟨"QQQ", false, 100, 150, ⟨some (some 30), some (some 1), some (some 28)⟩⟩].map
          fun t => (calculate_n_score t ⟨25, 1⟩).1)
        ++ (calculate_n_score
            ⟨"SPY", false, 500, 600, ⟨some (some 30), some (some 1), some (some 28)⟩⟩
            ⟨25, 1⟩).1
          :: [⟨"NVDA", false, 100, 300, ⟨some (some 40), some (some 2), some (some 35)⟩⟩].map
            (fun t => (calculate_n_score t ⟨30, 600 / 500⟩).1),
        ⟨30, 600 / 500⟩) :=
  benchmark_write_once
    [⟨"QQQ", false, 100, 150, ⟨some (some 30), some (some 1), some (some 28)⟩⟩]
    [⟨"NVDA", false, 100, 300, ⟨some (some 40), some (some 2), some (some 35)⟩⟩]
    ⟨"SPY", false, 500, 600, ⟨some (some 30), some (some 1), some (some 28)⟩⟩ 30
    (by decide) (by decide) rfl rfl (by norm_num) rfl (by norm_num)

/-- On success, the run.py Strategy B scorer returns the clamped score and
the 6x/100/40 daily-amount mapping applied to it. -/
theorem scorer1_ok_shape (s : Snap) (b : ℚ) (r : BResult)
    (h : long_term_investment_score s b = .ok r) :
    ∃ s0 : ℚ, r.score = max 0 (min 100 s0) ∧ r.daily = daily_amt b 6 100 40 r.score := by
  unfold long_term_investment_score at h
  dsimp only at h
  split at h
  · exact Except.noConfusion h
  split at h
  · exact Except.noConfusion h
  split at h
  · exact Except.noConfusion h
  split at h
  · exact Except.noConfusion h
  split at h
  · exact Except.noConfusion h
  injection h with h2
  subst h2
  exact ⟨_, rfl, rfl⟩

/-- On success, the run2.py Strategy B scorer returns the clamped score and
the 5x/50/30 daily-amount mapping applied to it. -/
theorem scorer2_ok_shape (s : Snap) (b : ℚ) (r : BResult)
    (h : long_term_investment_score_v2 s b = .ok r) :
    ∃ s0 : ℚ, r.score = max 0 (min 100 s0) ∧ r.daily = daily_amt b 5 50 30 r.score := by
  unfold long_term_investment_score_v2 at h
  dsimp only at h
  split at h
  · exact Except.noConfusion h
  split at h
  · exact Except.noConfusion h
  split at h
  · exact Except.noConfusion h
  split at h
  · exact Except.noConfusion h
  split at h
  · exact Except.noConfusion h
  split at h
  · exact Except.noConfusion h
  injection h with h2
  subst h2
  exact ⟨_, rfl, rfl⟩

/-- On success, the run3.py Strategy B scorer returns the clamped score and
the 6x/100/40 daily-amount mapping applied to it. -/
theorem scorer3_ok_shape (s : Snap) (b : ℚ) (r : BResult)
    (h : long_term_investment_score_v3 s b = .ok r) :
    ∃ s0 : ℚ, r.score = max 0 (min 100 s0) ∧ r.daily = daily_amt b 6 100 40 r.score := by
  unfold long_term_investment_score_v3 at h
  dsimp only at h
  split at h
  · exact Except.noConfusion h
  split at h
  · exact Except.noConfusion h
  split at h
  · exact Except.noConfusion h
  split at h
  · exact Except.noConfusion h
  injection h with h2
  subst h2
  exact ⟨_, rfl, rfl⟩

/-- The daily-amount mapping is monotone in the score for nonnegative base,
multiplier, ceiling and floor. -/
theorem daily_amt_mono (b m c f x y : ℚ) (hb : 0 ≤ b) (hm : 0 ≤ m) (hc : 0 ≤ c)
    (hf : 0 ≤ f) (hxy : x ≤ y) : daily_amt b m c f x ≤ daily_amt b m c f y := by
  unfold daily_amt
  dsimp only
  split_ifs with h1 h2 h2
  · exact le_refl 0
  · have hy : 0 ≤ y := le_trans hf (not_lt.mp h2)
    exact le_min (mul_nonneg hb (mul_nonneg (div_nonneg hy (by norm_num)) hm)) hc
  · exact absurd (lt_of_le_of_lt hxy h2) h1
  · refine min_le_min ?_ le_rfl
    have h100 : x / 100 ≤ y / 100 := by linarith
    exact mul_le_mul_of_nonneg_left (mul_le_mul_of_nonneg_right h100 hm) hb

/-- C4: whenever a Strategy B scorer succeeds, the final score lies in
[0, 100] and the daily amount equals
`min(base * (score/100) * maxMultiplier, ceiling)` forced to 0 below the
score floor (6x/100/40 for run.py and run3.py, 5x/50/30 for run2.py); and
the daily-amount mapping is monotonically non-decreasing in the score when
base, multiplier, ceiling and floor are held fixed (and nonnegative, as
all configured values are). -/
theorem scoreB_range_daily :
    (∀ (s : Snap) (b : ℚ) (r : BResult), long_term_investment_score s b = .ok r →
       0 ≤ r.score ∧ r.score ≤ 100 ∧
       r.daily = if r.score < 40 then 0 else min (b * (r.score / 100) * 6) 100) ∧
    (∀ (s : Snap) (b : ℚ) (r : BResult), long_term_investment_score_v2 s b = .ok r →
       0 ≤ r.score ∧ r.score ≤ 100 ∧
       r.daily = if r.score < 30 then 0 else min (b * (r.score / 100) * 5) 50) ∧
    (∀ (s : Snap) (b : ℚ) (r : BResult), long_term_investment_score_v3 s b = .ok r →
       0 ≤ r.score ∧ r.score ≤ 100 ∧
       r.daily = if r.score < 40 then 0 else min (b * (r.score / 100) * 6) 100) ∧
    (∀ b m c f x y : ℚ, 0 ≤ b → 0 ≤ m → 0 ≤ c → 0 ≤ f → x ≤ y →
       daily_amt b m c f x ≤ daily_amt b m c f y) := by
  refine ⟨?_, ?_, ?_, daily_amt_mono⟩
  · intro s b r h
    obtain ⟨s0, hs, hd⟩ := scorer1_ok_shape s b r h
    refine ⟨?_, ?_, ?_⟩
    · rw [hs]; exact le_max_left _ _
    · rw [hs]; exact max_le (by norm_num) (min_le_left _ _)
    · rw [hd]
      unfold daily_amt
      dsimp only
      split_ifs with hlt
      · rfl
      · congr 1
        ring
  · intro s b r h
    obtain ⟨s0, hs, hd⟩ := scorer2_ok_shape s b r h
    refine ⟨?_, ?_, ?_⟩
    · rw [hs]; exact le_max_left _ _
    · rw [hs]; exact max_le (by norm_num) (min_le_left _ _)
    · rw [hd]
      unfold daily_amt
      dsimp only
      split_ifs with hlt
      · rfl
      · congr 1
        ring
  · intro s b r h
    obtain ⟨s0, hs, hd⟩ := scorer3_ok_shape s b r h
    refine ⟨?_, ?_, ?_⟩
    · rw [hs]; exact le_max_left _ _
    · rw [hs]; exact max_le (by norm_num) (min_le_left _ _)
    · rw [hd]
      unfold daily_amt
      dsimp only
      split_ifs with hlt
      · rfl
      · congr 1
        ring

/-- Witness for C4: concrete successful runs of all three scorers and a
concrete monotonicity instance. -/
theorem scoreB_range_daily_w :
    ((0 : ℚ) ≤ 100 ∧ (100 : ℚ) ≤ 100 ∧
      (60 : ℚ) = if (100 : ℚ) < 40 then 0 else min ((10 : ℚ) * (100 / 100) * 6) 100) ∧
    ((0 : ℚ) ≤ 63 ∧ (63 : ℚ) ≤ 100 ∧
      (63 / 2 : ℚ) = if (63 : ℚ) < 30 then 0 else min ((10 : ℚ) * (63 / 100) * 5) 50) ∧
    ((0 : ℚ) ≤ 87 ∧ (87 : ℚ) ≤ 100 ∧
      (261 / 5 : ℚ) = if (87 : ℚ) < 40 then 0 else min ((10 : ℚ) * (87 / 100) * 6) 100) ∧
    daily_amt 10 6 100 40 50 ≤ daily_amt 10 6 100 40 80 :=
  ⟨scoreB_range_daily.1
      ⟨100, 200, some (some 20), some (some 25), some (some 2), some (some (1 / 5)),
        some (some 0), some (some (3 / 10)), none, some (some 10), some (some 100),
        some (some 40)⟩ 10 ⟨100, 60, 2, 50⟩
      (by norm_num [long_term_investment_score, pyGet, pyGetD, truthy, pyOr, pyOrQ,
        peg_resolve, peg_fb, fcf_yield_calc, mulO, roic_score1, fcf_score1, peg_score,
        balance_score, growth_score, dd_score, daily_amt]),
   scoreB_range_daily.2.1
      ⟨100, 200, some (some 20), some (some 25), some (some 2), some (some (1 / 5)),
        some (some 0), some (some (3 / 10)), none, some (some 10), some (some 100),
        some (some 40)⟩ 10 ⟨63, 63 / 2, 2, 50⟩
      (by norm_num [long_term_investment_score_v2, pyGet, pyGetD, truthy, pyOr, pyOrQ,
        peg_resolve2, peg_fb2, fcf_yield_calc2, mulO, divO, roic_score2, fcf_score3,
        peg_score2, balance_score2, growth_score2, dd_score2, daily_amt]),
   scoreB_range_daily.2.2.1
      ⟨100, 200, some (some 20), some (some 25), some (some 2), some (some (1 / 5)),
        some (some 0), some (some (3 / 10)), none, some (some 10), some (some 100),
        some (some 40)⟩ 10 ⟨87, 261 / 5, 2, 50⟩
      (by norm_num [long_term_investment_score_v3, pyGet, pyGetD, truthy, pyOr, pyOrQ,
        peg_resolve, peg_fb, fcf_yield_calc, mulO, roic_score3, fcf_score3, peg_score,
        balance_score, growth_score, dd_score, daily_amt]),
   scoreB_range_daily.2.2.2 10 6 100 40 50 80 (by norm_num) (by norm_num) (by norm_num)
      (by norm_num) (by norm_num)⟩

/-- Counterexample for C7: with `pegRatio` absent, `earningsGrowth = 0`
(non-positive) and `forwardPE = 20`, the run.py scorer derives PEG = 2
(the zero growth is replaced by the `or 0.1` default, giving 20/10), not
the sentinel 99 that the claim requires for non-positive growth. -/
theorem peg_zero_growth_cex :
    long_term_investment_score
      ⟨100, 200, some (some 20), none, none, some (some 0), some (some 0),
        some (some (3 / 10)), none, some (some 10), some (some 100), none⟩ 10 =
      .ok ⟨82, 246 / 5, 2, 50⟩ ∧ (2 : ℚ) ≠ 99 := by
  constructor
  · norm_num [long_term_investment_score, pyGet, pyGetD, truthy, pyOr, pyOrQ, peg_resolve,
      peg_fb, fcf_yield_calc, mulO, roic_score1, fcf_score1, peg_score, balance_score,
      growth_score, dd_score, daily_amt]
  · norm_num

/-- C7 (amended): when `pegRatio` is absent or non-positive, the derived PEG
equals `pe / (earningsGrowth * 100)` whenever that growth is present and
positive and `pe` is the resolved P/E (forward, else trailing, else 20 in
the run.py/run3.py variant) — in particular `pegRatio = None`,
`earningsGrowth = 0.10`, `forwardPE = 20` yields exactly 2.0; it equals the
sentinel 99 when the growth is strictly negative; when the growth is zero
the run.py/run3.py variant substitutes the default growth 0.1 and yields
`pe / 10`, while the run2.py variant yields the sentinel 99 for every
non-positive present growth (and requires a truthy P/E for the quotient
form). -/
theorem peg_fallback_amended :
    (∀ (g0 : ℚ) (fpe tpe : Option ℚ), 0 < g0 →
       peg_resolve none (some g0) fpe tpe = pyOrQ (pyOr fpe tpe) 20 / (g0 * 100)) ∧
    (peg_resolve none (some 0.1) (some 20) none = 2) ∧
    (∀ (g0 : ℚ) (fpe tpe : Option ℚ), g0 < 0 →
       peg_resolve none (some g0) fpe tpe = 99) ∧
    (∀ fpe tpe : Option ℚ,
       peg_resolve none (some 0) fpe tpe = pyOrQ (pyOr fpe tpe) 20 / 10) ∧
    (∀ (v : ℚ) (eg fpe tpe : Option ℚ), v ≤ 0 →
       peg_resolve (some v) eg fpe tpe = peg_resolve none eg fpe tpe) ∧
    (∀ (g0 : ℚ) (fpe tpe : Option ℚ), g0 ≤ 0 →
       peg_resolve2 none (some (some g0)) fpe tpe = .ok 99) ∧
    (∀ (g0 : ℚ) (fpe tpe : Option ℚ), 0 < g0 → truthy (pyOr fpe tpe) = true →
       peg_resolve2 none (some (some g0)) fpe tpe =
         .ok ((pyOr fpe tpe).getD 0 / (g0 * 100))) := by
  refine ⟨?_, ?_, ?_, ?_, ?_, ?_, ?_⟩
  · intro g0 fpe tpe h
    simp only [peg_resolve, peg_fb, pyOrQ, if_neg (ne_of_gt h)]
    rw [if_pos (by linarith)]
  · norm_num [peg_resolve, peg_fb, pyOrQ, pyOr, truthy]
  · intro g0 fpe tpe h
    simp only [peg_resolve, peg_fb, pyOrQ, if_neg (ne_of_lt h)]
    rw [if_neg (by linarith)]
  · intro fpe tpe
    simp only [peg_resolve, peg_fb, pyOrQ, if_pos rfl]
    rw [if_pos (by norm_num)]
    norm_num
  · intro v eg fpe tpe h
    simp only [peg_resolve, if_neg (not_lt.mpr h)]
  · intro g0 fpe tpe h
    simp only [peg_resolve2, peg_fb2, Option.getD_some]
    rw [if_neg]
    rintro ⟨hgt, _⟩
    linarith
  · intro g0 fpe tpe h htr
    simp only [peg_resolve2, peg_fb2, Option.getD_some]
    rw [if_pos ⟨by linarith, htr⟩]

/-- Witness for C7 (amended): concrete instantiations of each clause. -/
theorem peg_fallback_amended_w :
    peg_resolve none (some 0.1) (some 20) none = pyOrQ (pyOr (some 20) none) 20 / (0.1 * 100) ∧
    peg_resolve none (some (-0.2)) (some 20) none = 99 ∧
    peg_resolve (some (-1)) (some 0.1) (some 20) none = peg_resolve none (some 0.1) (some 20) none ∧
    peg_resolve2 none (some (some 0)) (some 20) none = .ok 99 ∧
    peg_resolve2 none (some (some 0.1)) (some 20) none =
      .ok ((pyOr (some 20) none).getD 0 / (0.1 * 100)) :=
  ⟨peg_fallback_amended.1 0.1 (some 20) none (by norm_num),
   peg_fallback_amended.2.2.1 (-0.2) (some 20) none (by norm_num),
   peg_fallback_amended.2.2.2.2.1 (-1) (some 0.1) (some 20) none (by norm_num),
   peg_fallback_amended.2.2.2.2.2.1 0 (some 20) none (by norm_num),
   peg_fallback_amended.2.2.2.2.2.2 0.1 (some 20) none (by norm_num)
     (by norm_num [truthy, pyOr])⟩

/-- Counterexample for C1: a snapshot with both `returnOnEquity` and
`returnOnAssets` absent aborts the ticker in both the run.py and the
run3.py Strategy B scorers (the ROE/ROIC term raises `TypeError`), and a
snapshot with ROE present but `freeCashflow` absent aborts the run.py
scorer (`3 * None` raises `TypeError`) — the scoring is aborted rather
than treating the unavailable metric as a zero contribution. -/
theorem strategyB_missing_metric_cex :
    long_term_investment_score
      ⟨100, 200, none, none, none, none, none, none, none, none, none, none⟩ 10 =
      .error "TypeError" ∧
    long_term_investment_score_v3
      ⟨100, 200, none, none, none, none, none, none, none, none, none, none⟩ 10 =
      .error "TypeError" ∧
    long_term_investment_score
      ⟨100, 200, none, none, none, none, none, some (some (3 / 10)), none, none, none,
        none⟩ 10 = .error "TypeError" := by
  refine ⟨?_, ?_, ?_⟩ <;>
    norm_num [long_term_investment_score, long_term_investment_score_v3, pyGet, pyGetD,
      truthy, pyOr, pyOrQ, peg_resolve, peg_fb, fcf_yield_calc, mulO, roic_score1,
      roic_score3, fcf_score1, fcf_score3, peg_score, balance_score, growth_score,
      dd_score, daily_amt]

/-- C1 (amended): the Strategy B scorers degrade gracefully for an absent
`debtToEquity` (0 contribution), an absent FCF yield in the tiered
run3.py variant (0 contribution), and absent `pegRatio`/`earningsGrowth`
(documented defaults, scoring succeeds); but an unavailable ROE/ROA proxy
raises `TypeError` in both variants and aborts that ticker with an error
result (the linear FCF term of run.py likewise raises on an unavailable
FCF yield), the batch continuing with the next ticker. -/
theorem strategyB_missing_metric_amended :
    balance_score none = 0 ∧
    fcf_score3 none = 0 ∧
    fcf_score1 none = .error "TypeError" ∧
    roic_score1 none = .error "TypeError" ∧
    roic_score3 none = .error "TypeError" ∧
    (∀ (s : Snap) (b : ℚ), s.ath ≠ 0 →
       pyOr (pyGet s.returnOnEquity) (pyGet s.returnOnAssets) = none →
       long_term_investment_score s b = .error "TypeError" ∧
       long_term_investment_score_v3 s b = .error "TypeError") ∧
    long_term_investment_score
      ⟨100, 200, none, none, none, none, none, some (some (3 / 10)), none, some (some 5),
        some (some 100), none⟩ 10 = .ok ⟨67, 201 / 5, 2, 50⟩ ∧
    long_term_investment_score_v3
      ⟨100, 200, none, none, none, none, none, some (some (3 / 10)), none, some (some 5),
        some (some 100), none⟩ 10 = .ok ⟨59, 177 / 5, 2, 50⟩ := by
  refine ⟨rfl, rfl, rfl, rfl, rfl, ?_, ?_, ?_⟩
  · intro s b hath hroic
    constructor
    · unfold long_term_investment_score
      rw [if_neg hath]
      dsimp only
      rcases h1 : pyGetD s.revenueGrowth 0 with _ | v1
      · simp [mulO, h1]
      · rcases h2 : pyGetD s.earningsGrowth 0 with _ | v2
        · simp [mulO, h1, h2]
        · simp [mulO, h1, h2, hroic, roic_score1]
    · unfold long_term_investment_score_v3
      rw [if_neg hath]
      dsimp only
      rcases h1 : pyGetD s.revenueGrowth 0 with _ | v1
      · simp [mulO, h1]
      · rcases h2 : pyGetD s.earningsGrowth 0 with _ | v2
        · simp [mulO, h1, h2]
        · simp [mulO, h1, h2, hroic, roic_score3]
  · norm_num [long_term_investment_score, pyGet, pyGetD, truthy, pyOr, pyOrQ, peg_resolve,
      peg_fb, fcf_yield_calc, mulO, roic_score1, fcf_score1, peg_score, balance_score,
      growth_score, dd_score, daily_amt]
  · norm_num [long_term_investment_score_v3, pyGet, pyGetD, truthy, pyOr, pyOrQ,
      peg_resolve, peg_fb, fcf_yield_calc, mulO, roic_score3, fcf_score3, peg_score,
      balance_score, growth_score, dd_score, daily_amt]

/-- Witness for C1 (amended): the abort clause instantiated at a concrete
snapshot with both ROE and ROA absent. -/
theorem strategyB_missing_metric_amended_w :
    long_term_investment_score
      ⟨100, 400, none, none, none, none, none, none, none, some (some 5), some (some 100),
        some (some 30)⟩ 10 = .error "TypeError" ∧
    long_term_investment_score_v3
      ⟨100, 400, none, none, none, none, none, none, none, some (some 5), some (some 100),
        some (some 30)⟩ 10 = .error "TypeError" :=
  strategyB_missing_metric_amended.2.2.2.2.2.1
    ⟨100, 400, none, none, none, none, none, none, none, some (some 5), some (some 100),
      some (some 30)⟩ 10 (by norm_num) rfl

/-- Division by a `nan` rolling statistic yields `nan`, whatever the
numerator. -/
theorem pyfloat_fdiv_nan (x : PyFloat) : x.fdiv .nan = .nan := by
  cases x <;> rfl

/-- Counterexample for C6: with a short series (400 samples, so the rolling
statistics with `min_periods = 500` are `nan`), the run6.py macro stage
does not state insufficient history: the `nan` z-score fails every
comparison, the regime falls through to the spread/ratio rules (here to
the growth regime), and the report still formats the undefined z-score. -/
theorem macro_undefined_z_cex :
    run6_analysis ⟨400, .num 2, .nan, .nan, 1 / 2, 3 / 2⟩ =
      ⟨some .nan, "EARLY/MID CYCLE GROWTH", (60, 20, 20)⟩ ∧
    ("EARLY/MID CYCLE GROWTH" : String) ≠ "INSUFFICIENT HISTORY FOR Z-SCORE" := by
  constructor
  · norm_num [run6_analysis, run6_regime, PyFloat.fsub, PyFloat.fdiv, PyFloat.gtc]
  · decide

/-- C6 (amended): the run5.py macro stage states insufficient history —
below the 756-day overlap minimum it returns the insufficient-data error,
and with an undefined rolling standard deviation it reports the
INSUFFICIENT HISTORY regime and an N/A z-score line instead of a number;
the run6.py variant has no such guard: an undefined rolling std makes the
z-score `nan`, the report still presents it, and the regime is decided by
the yield-spread/ratio rules alone, never an insufficient-history
statement. -/
theorem macro_insufficient_amended :
    (∀ m : MacroIn, m.sampleLen < 756 →
       run5_analysis m = .error "insufficient overlapping data") ∧
    (∀ m : MacroIn, ¬ m.sampleLen < 756 → m.rollStd.isna = true →
       run5_analysis m = .ok ⟨none, "INSUFFICIENT HISTORY FOR Z-SCORE", (33, 33, 34)⟩) ∧
    (∀ m : MacroIn, m.rollStd.isna = true →
       run6_analysis m =
         ⟨some .nan, (run6_regime .nan m.yieldSpread m.spGold).1,
           (run6_regime .nan m.yieldSpread m.spGold).2⟩ ∧
       (run6_regime .nan m.yieldSpread m.spGold).1 ≠
         "INSUFFICIENT HISTORY FOR Z-SCORE") := by
  refine ⟨?_, ?_, ?_⟩
  · intro m h
    unfold run5_analysis
    rw [if_pos h]
  · intro m h1 h2
    have hnan : m.rollStd = .nan := by
      cases hm : m.rollStd <;> simp_all [PyFloat.isna]
    unfold run5_analysis run5_z
    rw [if_neg h1, hnan]
    simp [run5_regime, PyFloat.isna]
  · intro m h
    have hnan : m.rollStd = .nan := by
      cases hm : m.rollStd <;> simp_all [PyFloat.isna]
    have hz : (m.currentVal.fsub m.rollMean).fdiv m.rollStd = .nan := by
      rw [hnan, pyfloat_fdiv_nan]
    constructor
    · unfold run6_analysis
      rw [hz]
    · unfold run6_regime
      simp only [PyFloat.gtc, Bool.false_eq_true, if_false]
      split_ifs <;> decide

/-- Witness for C6 (amended): a 100-sample run aborts run5 with the
insufficient-data error; an 800-sample run with `nan` rolling std reports
the INSUFFICIENT HISTORY regime with an N/A z line; the same input fed to
run6 presents `nan` and falls through to the growth regime. -/
theorem macro_insufficient_amended_w :
    run5_analysis ⟨100, .num 2, .num 1, .num 1, 1 / 2, 3 / 2⟩ =
      .error "insufficient overlapping data" ∧
    run5_analysis ⟨800, .num 2, .nan, .nan, 1 / 2, 3 / 2⟩ =
      .ok ⟨none, "INSUFFICIENT HISTORY FOR Z-SCORE", (33, 33, 34)⟩ ∧
    (run6_analysis ⟨800, .num 2, .nan, .nan, 1 / 2, 3 / 2⟩ =
        ⟨some .nan, (run6_regime .nan (1 / 2) (3 / 2)).1,
          (run6_regime .nan (1 / 2) (3 / 2)).2⟩ ∧
      (run6_regime .nan (1 / 2) (3 / 2)).1 ≠ "INSUFFICIENT HISTORY FOR Z-SCORE") :=
  ⟨macro_insufficient_amended.1 ⟨100, .num 2, .num 1, .num 1, 1 / 2, 3 / 2⟩ (by norm_num),
   macro_insufficient_amended.2.1 ⟨800, .num 2, .nan, .nan, 1 / 2, 3 / 2⟩ (by norm_num) rfl,
   macro_insufficient_amended.2.2 ⟨800, .num 2, .nan, .nan, 1 / 2, 3 / 2⟩ rfl⟩
